import Mathlib

/-!
Verification of the test-data generator (`generate_data.py`).

The Python module is shallowly embedded below.  Python `int` becomes `ℤ`,
`datetime.datetime` becomes `ℤ` microseconds since 1970-01-01 00:00:00
(a `datetime` is an exact microsecond-resolution instant, so this encoding
is lossless), Python `float` draws of the random source become `ℚ`, and
fallible operations return `Option`.  The process-wide random source is
modelled by passing the drawn quantities in explicitly: `randrange(min, max)`
returns `min + k` for a draw `k` with `0 ≤ k < max - min`, and
`random.uniform(a, b)` returns `a + (b - a) * u` for a draw `u` with
`0 ≤ u < 1`.
-/

namespace GenData

/-- Decimal digits of a natural number, most significant first (empty for 0).
    The first argument is fuel, instantiated with the number itself so the
    definition is structural and reduces in the kernel. -/
def natDigitsAux : ℕ → ℕ → List Char
  | 0, _ => []
  | fuel + 1, n =>
    if n = 0 then [] else natDigitsAux fuel (n / 10) ++ [Char.ofNat (48 + n % 10)]

/-- Decimal rendering of a natural number, as Python `str` renders it. -/
def natStr (n : ℕ) : String := if n = 0 then "0" else ⟨natDigitsAux n n⟩

/-- Decimal rendering of an integer, as Python `str` renders it. -/
def intStr (n : ℤ) : String := if n < 0 then "-" ++ natStr n.natAbs else natStr n.natAbs

/-- Zero-padded decimal rendering to width `w` (Python `'%0wd' % n`). -/
def padStr (w : ℕ) (n : ℕ) : String :=
  ⟨List.replicate (w - (natStr n).length) '0'⟩ ++ natStr n

/-- Days since 1970-01-01 of a proleptic-Gregorian calendar date
    (the arithmetic underlying `datetime.toordinal`). -/
def daysFromCivil (y m d : ℤ) : ℤ :=
  let y' := y - (if m ≤ 2 then 1 else 0)
  let era := Int.fdiv y' 400
  let yoe := y' - era * 400
  let mp := m + (if 2 < m then -3 else 9)
  let doy := Int.fdiv (153 * mp + 2) 5 + d - 1
  let doe := yoe * 365 + Int.fdiv yoe 4 - Int.fdiv yoe 100 + doy
  era * 146097 + doe - 719468

/-- Calendar date (year, month, day) of a count of days since 1970-01-01,
    inverse of `daysFromCivil` (the arithmetic underlying
    `datetime.fromordinal`). -/
def civilFromDays (z0 : ℤ) : ℤ × ℤ × ℤ :=
  let z := z0 + 719468
  let era := Int.fdiv z 146097
  let doe := z - era * 146097
  let yoe := Int.fdiv (doe - Int.fdiv doe 1460 + Int.fdiv doe 36524 - Int.fdiv doe 146096) 365
  let y := yoe + era * 400
  let doy := doe - (365 * yoe + Int.fdiv yoe 4 - Int.fdiv yoe 100)
  let mp := Int.fdiv (5 * doy + 2) 153
  let d := doy - Int.fdiv (153 * mp + 2) 5 + 1
  let m := mp + (if mp < 10 then 3 else -9)
  (y + (if m ≤ 2 then 1 else 0), m, d)

/-- Python `str(datetime)`: `YYYY-MM-DD HH:MM:SS`, zero-padded, followed by
    `.ffffff` (six microsecond digits) exactly when the microsecond part is
    non-zero, and by nothing at all when it is zero. -/
def formatDatetime (t : ℤ) : String :=
  let us := Int.emod t 1000000
  let secs := Int.fdiv t 1000000
  let days := Int.fdiv secs 86400
  let sod := Int.emod secs 86400
  let ymd := civilFromDays days
  padStr 4 ymd.1.toNat ++ "-" ++ padStr 2 ymd.2.1.toNat ++ "-" ++ padStr 2 ymd.2.2.toNat ++
    " " ++ padStr 2 (Int.fdiv sod 3600).toNat ++ ":" ++
    padStr 2 (Int.emod (Int.fdiv sod 60) 60).toNat ++ ":" ++
    padStr 2 (Int.emod sod 60).toNat ++
    (if us = 0 then "" else "." ++ padStr 6 us.toNat)

/-- Value of a decimal digit character. -/
def digitVal (c : Char) : ℕ := c.toNat - 48

/-- Model of `strptime` `%Y`: exactly four decimal digits. -/
def parseYear : List Char → Option (ℕ × List Char)
  | a :: b :: c :: d :: rest =>
    if a.isDigit ∧ b.isDigit ∧ c.isDigit ∧ d.isDigit then
      some (1000 * digitVal a + 100 * digitVal b + 10 * digitVal c + digitVal d, rest)
    else none
  | _ => none

/-- Model of a `strptime` two-or-one-digit field (`%m`, `%d`, `%H`, `%M`, `%S`): two
    digits whose value lies in `[lo2, hi2]`, or — matching the regex
    alternation order with backtracking — a single digit accepted by `ok1`. -/
def parse2or1 (lo2 hi2 : ℕ) (ok1 : ℕ → Bool) : List Char → Option (ℕ × List Char)
  | a :: b :: rest =>
    if a.isDigit ∧ b.isDigit ∧ lo2 ≤ 10 * digitVal a + digitVal b ∧
        10 * digitVal a + digitVal b ≤ hi2 then
      some (10 * digitVal a + digitVal b, rest)
    else if a.isDigit ∧ ok1 (digitVal a) then some (digitVal a, b :: rest)
    else none
  | [a] => if a.isDigit ∧ ok1 (digitVal a) then some (digitVal a, []) else none
  | [] => none

/-- Match one literal character. -/
def expectChar (c : Char) : List Char → Option (List Char)
  | x :: rest => if x = c then some rest else none
  | [] => none

/-- Length of a month in the proleptic Gregorian calendar
    (`datetime`'s day-of-month validation). -/
def daysInMonth (y m : ℕ) : ℕ :=
  if m = 2 then (if y % 4 = 0 ∧ (y % 100 ≠ 0 ∨ y % 400 = 0) then 29 else 28)
  else if m = 4 ∨ m = 6 ∨ m = 9 ∨ m = 11 then 30 else 31

/-- Model of `str_to_ts`: `datetime.strptime(ts, '%Y-%m-%d %H:%M:%S')`, i.e. parse the
    string against the fixed pattern (field ranges as in `_strptime`'s
    regexes, with `%S` admitting 60 and 61) and build the `datetime`, which
    additionally requires `year ≥ 1`, a day that exists in the month, and
    `second ≤ 59`.  The result is microseconds since 1970-01-01. -/
def str_to_ts (s : String) : Option ℤ := do
  let (y, r1) ← parseYear s.data
  let r2 ← expectChar '-' r1
  let (mo, r3) ← parse2or1 1 12 (fun v => 1 ≤ v) r2
  let r4 ← expectChar '-' r3
  let (d, r5) ← parse2or1 1 31 (fun v => 1 ≤ v) r4
  let r6 ← expectChar ' ' r5
  let (h, r7) ← parse2or1 0 23 (fun _ => true) r6
  let r8 ← expectChar ':' r7
  let (mi, r9) ← parse2or1 0 59 (fun _ => true) r8
  let r10 ← expectChar ':' r9
  let (sec, r11) ← parse2or1 0 61 (fun _ => true) r10
  if r11 = [] ∧ 1 ≤ y ∧ d ≤ daysInMonth y mo ∧ sec ≤ 59 then
    some ((daysFromCivil y mo d * 86400 + (h * 3600 + mi * 60 + sec : ℕ)) * 1000000)
  else none

/-- Model of `rand_int`: `random.randrange(min, max)` raises `ValueError` unless
    `min < max`; otherwise it returns `min + k` where `k` is the source's
    draw in `[0, max - min)`. -/
def rand_int (mn mx k : ℤ) : Option ℤ := if mn < mx then some (mn + k) else none

/-- Model of `rand_ts`: parse both bounds, take the span in seconds
    (`(max - min).total_seconds()`), draw `uniform(0, delta) = delta * u`
    for `u = random() ∈ [0, 1)`, and return `min + timedelta(0, delta_rand)`
    — the timedelta rounds its seconds argument to whole microseconds. -/
def rand_ts (mn mx : String) (u : ℚ) : Option ℤ :=
  match str_to_ts mn, str_to_ts mx with
  | some a, some b =>
    let delta : ℚ := ((b - a : ℤ) : ℚ) / 1000000
    let delta_rand : ℚ := delta * u
    some (a + round (delta_rand * 1000000))
  | _, _ => none

/-- A `min`/`max` bound as passed to `RandomData` (Python is dynamically
    typed: integer bounds for `'int'`, string bounds for `'ts'`). -/
inductive Bnd where
  | int (n : ℤ)
  | str (s : String)
deriving DecidableEq

/-- A realized random value: Python `int` or `datetime`
    (microseconds since 1970-01-01). -/
inductive Value where
  | int (n : ℤ)
  | ts (t : ℤ)
deriving DecidableEq

/-- Python `str(value)` as used by `DataString.values` and `generate_xml`. -/
def Value.str : Value → String
  | .int n => intStr n
  | .ts t => formatDatetime t

/-- The quantities one `RandomData` construction consumes from the random
    source: `k` for `randrange`, `u` for `random()` inside `uniform`. -/
structure Draw where
  k : ℤ
  u : ℚ

/-- Model of `RandomData.rand_value`: dispatch on the type tag.  An unrecognized tag
    falls through returning `None`; a tag/bound mismatch raises in Python —
    both are `none` here. -/
def rand_value (value_type : String) (mn mx : Bnd) (d : Draw) : Option Value :=
  if value_type = "int" then
    match mn, mx with
    | .int a, .int b => (rand_int a b d.k).map Value.int
    | _, _ => none
  else if value_type = "ts" then
    match mn, mx with
    | .str a, .str b => (rand_ts a b d.u).map Value.ts
    | _, _ => none
  else none

/-- Model of `RandomData`: name, limits, and the value drawn once at construction. -/
structure RandomData where
  name : String
  min : Bnd
  max : Bnd
  value : Value

/-- Model of `RandomData.__init__`: store the limits and draw the value. -/
def RandomData.make (name value_type : String) (mn mx : Bnd) (d : Draw) :
    Option RandomData :=
  (rand_value value_type mn mx d).map (fun v => ⟨name, mn, mx, v⟩)

/-- The draws consumed by the seven fields of one `DataString`. -/
structure RecDraws where
  start_page : Draw
  user : Draw
  ts : Draw
  depth : Draw
  duration : Draw
  transmit : Draw
  type : Draw

/-- Model of `DataString.__init__`: the tuple of seven `RandomData`, in order, with
    the literal bounds from the source. -/
def DataString.make (d : RecDraws) : Option (List RandomData) := do
  let f1 ← RandomData.make "start_page" "int" (.int 1) (.int 1000000000) d.start_page
  let f2 ← RandomData.make "user" "int" (.int 1) (.int 100000000) d.user
  let f3 ← RandomData.make "ts" "ts" (.str "2005-01-01 23:56:42")
    (.str "2016-01-01 10:50:00") d.ts
  let f4 ← RandomData.make "depth" "int" (.int 1) (.int 50) d.depth
  let f5 ← RandomData.make "duration" "int" (.int 100) (.int 10000) d.duration
  let f6 ← RandomData.make "transmit" "int" (.int 100000) (.int 1000000000) d.transmit
  let f7 ← RandomData.make "type" "int" (.int 1) (.int 5) d.type
  return [f1, f2, f3, f4, f5, f6, f7]

/-- Model of `DataString.headers`: `','.join` of the field names. -/
def DataString.headers (l : List RandomData) : String :=
  String.intercalate "," (l.map RandomData.name)

/-- Model of `DataString.values`: `','.join` of `str` of the field values. -/
def DataString.values (l : List RandomData) : String :=
  String.intercalate "," (l.map (fun r => r.value.str))

/-- The records built by the loop `for _ in range(1, strings_to_output)`:
    one fresh `DataString` per iteration.  Iteration `i` of the loop (the
    header record being record `0`) consumes the draws `draws (i + 1)`. -/
def buildRecords (draws : ℤ → RecDraws) : List ℕ → Option (List (List RandomData))
  | [] => some []
  | i :: is =>
    match DataString.make (draws ((i : ℤ) + 1)), buildRecords draws is with
    | some r, some rs => some (r :: rs)
    | _, _ => none

/-- The text the CSV loop appends after the header: `'\n' + values()` per
    generated record. -/
def csvBody : List (List RandomData) → String
  | [] => ""
  | r :: rs => "\n" ++ DataString.values r ++ csvBody rs

/-- Model of `generate_csv(file, data_rows)`: the full text written to the file —
    a fresh record's `headers()`, then `'\n' + values()` of a fresh record
    for each iteration of `range(1, data_rows)`. -/
def generate_csv (draws : ℤ → RecDraws) (data_rows : ℤ) : Option String := do
  let hdr ← DataString.make (draws 0)
  let recs ← buildRecords draws (List.range (data_rows - 1).toNat)
  return DataString.headers hdr ++ csvBody recs

/-- An `xml.etree` element: tag, text content, child elements. -/
inductive XElem where
  | mk (tag : String) (text : String) (children : List XElem)

/-- Tag of an element. -/
def XElem.tag : XElem → String
  | .mk t _ _ => t

/-- Text content of an element (`""` models Python's `None`). -/
def XElem.text : XElem → String
  | .mk _ x _ => x

/-- Child elements of an element. -/
def XElem.children : XElem → List XElem
  | .mk _ _ c => c

/-- One `row` element: `SubElement(root, 'row')` with one leaf per field,
    tagged `node.name`, text `str(node.value)`. -/
def rowElem (rec : List RandomData) : XElem :=
  .mk "row" "" (rec.map (fun node => XElem.mk node.name (Value.str node.value) []))

/-- The tree built by `generate_xml`: `Element('root')` with one `row` child
    appended per iteration of `range(1, data_rows)`. -/
def xmlRoot (draws : ℤ → RecDraws) (data_rows : ℤ) : Option XElem := do
  let recs ← buildRecords draws (List.range (data_rows - 1).toNat)
  return .mk "root" "" (recs.map rowElem)

mutual

/-- Model of `ElementTree.write` body serialization (default `us-ascii` settings: no
    declaration, `<tag />` for an empty element, text before children; none
    of the generated text needs entity escaping). -/
def serializeXml : XElem → String
  | .mk t x [] =>
    if x = "" then "<" ++ t ++ " />" else "<" ++ t ++ ">" ++ x ++ "</" ++ t ++ ">"
  | .mk t x (c :: cs) =>
    "<" ++ t ++ ">" ++ x ++ serializeChildren (c :: cs) ++ "</" ++ t ++ ">"

/-- Serialization of a list of sibling elements, in order. -/
def serializeChildren : List XElem → String
  | [] => ""
  | c :: cs => serializeXml c ++ serializeChildren cs

end

/-- Model of `generate_xml(file, data_rows)`: the final file content — `tree.write`
    output, re-read and rewritten with the declaration prologue line
    prepended. -/
def generate_xml (draws : ℤ → RecDraws) (data_rows : ℤ) : Option String := do
  let root ← xmlRoot draws data_rows
  return "<?xml version=\"1.0\" encoding=\"UTF-8\"?>\n" ++ serializeXml root

/-- A list of lines joined by single newlines, with no trailing newline. -/
def joinLines : List String → String
  | [] => ""
  | [a] => a
  | a :: b :: rest => a ++ "\n" ++ joinLines (b :: rest)

/-! ## The realized record

`DataString.make` always succeeds, and its seven fields are the explicit
list below: the integer fields hold `min + k`, and the `ts` field holds the
minimum bound instant plus the rounded drawn offset. -/

/-- The `ts` field's drawn value for a draw `u`: the parsed minimum bound
    (`2005-01-01 23:56:42` = 1104623802000000 µs) plus the rounded offset
    `delta * u` seconds into the span (span = 347021598 s). -/
def tsDraw (u : ℚ) : ℤ :=
  1104623802000000 +
    round ((((1451645400000000 - 1104623802000000 : ℤ) : ℚ) / 1000000) * u * 1000000)

/-- The seven fields of a realized `DataString`, explicitly. -/
def dsFields (d : RecDraws) : List RandomData :=
  [⟨"start_page", .int 1, .int 1000000000, .int (1 + d.start_page.k)⟩,
   ⟨"user", .int 1, .int 100000000, .int (1 + d.user.k)⟩,
   ⟨"ts", .str "2005-01-01 23:56:42", .str "2016-01-01 10:50:00", .ts (tsDraw d.ts.u)⟩,
   ⟨"depth", .int 1, .int 50, .int (1 + d.depth.k)⟩,
   ⟨"duration", .int 100, .int 10000, .int (100 + d.duration.k)⟩,
   ⟨"transmit", .int 100000, .int 1000000000, .int (100000 + d.transmit.k)⟩,
   ⟨"type", .int 1, .int 5, .int (1 + d.type.k)⟩]

/-- Building a `DataString` always succeeds and yields `dsFields`. -/
theorem dataString_make_eq (d : RecDraws) : DataString.make d = some (dsFields d) := by
  rfl

/-- The headers of any realized record are the seven field names. -/
theorem headers_dsFields (d : RecDraws) :
    DataString.headers (dsFields d) = "start_page,user,ts,depth,duration,transmit,type" := by
  rfl

/-- Lemma: `buildRecords` always succeeds, one `dsFields` per index. -/
theorem buildRecords_eq (draws : ℤ → RecDraws) (l : List ℕ) :
    buildRecords draws l = some (l.map (fun (i : ℕ) => dsFields (draws ((i : ℤ) + 1)))) := by
  induction l with
  | nil => rfl
  | cons i is ih => simp [buildRecords, dataString_make_eq, ih]

/-- Prepending a string to `csvBody` joins header and value lines with
    single newlines and no trailing newline. -/
theorem append_csvBody (l : List (List RandomData)) (a : String) :
    a ++ csvBody l = joinLines (a :: l.map DataString.values) := by
  induction l generalizing a with
  | nil => simp [csvBody, joinLines]
  | cons r rs ih =>
    simp only [csvBody, List.map_cons, joinLines]
    rw [← ih (DataString.values r)]
    simp [String.append_assoc]

/-- The full CSV text: header line of record 0, then the values lines of the
    records of `range(1, N)`, newline-separated. -/
theorem generate_csv_eq (draws : ℤ → RecDraws) (N : ℤ) :
    generate_csv draws N =
      some (joinLines (DataString.headers (dsFields (draws 0)) ::
        (List.range (N - 1).toNat).map
          (fun (i : ℕ) => DataString.values (dsFields (draws ((i : ℤ) + 1)))))) := by
  simp [generate_csv, dataString_make_eq, buildRecords_eq, append_csvBody, List.map_map,
    Function.comp_def]

/-- The tree built by `generate_xml`: a `root` element whose children are the
    `row` elements of the records of `range(1, N)`. -/
theorem xmlRoot_eq (draws : ℤ → RecDraws) (N : ℤ) :
    xmlRoot draws N = some (.mk "root" ""
      ((List.range (N - 1).toNat).map
        (fun (i : ℕ) => rowElem (dsFields (draws ((i : ℤ) + 1)))))) := by
  simp [xmlRoot, buildRecords_eq, List.map_map, Function.comp_def]

/-- Fixed draws used by the concrete witnesses. -/
def witnessDraws : RecDraws :=
  ⟨⟨0, 0⟩, ⟨0, 0⟩, ⟨0, 0⟩, ⟨0, 0⟩, ⟨0, 0⟩, ⟨0, 0⟩, ⟨0, 0⟩⟩

/-! ## Claims -/

/-- Claim C1: for every row count `N` (at least 1, the loop bound `range(1, N)`
    making "N − 1 data lines" meaningful), `generate_csv` writes exactly one
    header line from a fresh record, followed by `N − 1` data lines, each a
    fresh record's `values()`, separated by single newlines with no trailing
    newline; the total line count is `N`. -/
theorem generate_csv_lines (draws : ℤ → RecDraws) (N : ℤ) (h : 1 ≤ N) :
    ∃ hdr dataLines,
      (DataString.make (draws 0)).map DataString.headers = some hdr ∧
      ((dataLines : List String).length : ℤ) = N - 1 ∧
      (∀ i : ℕ, (hi : i < dataLines.length) →
        (DataString.make (draws ((i : ℤ) + 1))).map DataString.values = some dataLines[i]) ∧
      generate_csv draws N = some (joinLines (hdr :: dataLines)) ∧
      (((hdr :: dataLines) : List String).length : ℤ) = N := by
  refine ⟨DataString.headers (dsFields (draws 0)),
    (List.range (N - 1).toNat).map
      (fun (i : ℕ) => DataString.values (dsFields (draws ((i : ℤ) + 1)))), ?_, ?_, ?_, ?_, ?_⟩
  · rw [dataString_make_eq]; rfl
  · simp only [List.length_map, List.length_range]; omega
  · intro i hi
    rw [dataString_make_eq]
    simp only [Option.map_some', List.getElem_map, List.getElem_range]
  · exact generate_csv_eq draws N
  · simp only [List.length_cons, List.length_map, List.length_range]; omega

/-- Witness for claim C1: requesting 5 rows yields 1 header line plus 4 data
    lines, 5 lines in total. -/
theorem generate_csv_lines_witness :
    ∃ hdr dataLines,
      (DataString.make witnessDraws).map DataString.headers = some hdr ∧
      ((dataLines : List String).length : ℤ) = 5 - 1 ∧
      (∀ i : ℕ, (hi : i < dataLines.length) →
        (DataString.make witnessDraws).map DataString.values = some dataLines[i]) ∧
      generate_csv (fun _ => witnessDraws) 5 = some (joinLines (hdr :: dataLines)) ∧
      (((hdr :: dataLines) : List String).length : ℤ) = 5 :=
  generate_csv_lines (fun _ => witnessDraws) 5 (by decide)

/-- Claim C8: `headers()` is the same string for any two record instances,
    namely the seven comma-joined field names in declaration order, with no
    `referer` field. -/
theorem headers_identical (d d' : RecDraws) :
    (DataString.make d).map DataString.headers =
      (DataString.make d').map DataString.headers ∧
    (DataString.make d).map DataString.headers =
      some "start_page,user,ts,depth,duration,transmit,type" := by
  rw [dataString_make_eq, dataString_make_eq]
  exact ⟨rfl, rfl⟩

/-- Claim C3: for every row count `N ≥ 1`, `generate_xml` builds one `root`
    element with exactly `N − 1` direct `row` children, each with exactly
    seven leaves named and ordered `start_page, user, ts, depth, duration,
    transmit, type`, each leaf's text the `str` of that field's value. -/
theorem generate_xml_tree (draws : ℤ → RecDraws) (N : ℤ) (h : 1 ≤ N) :
    ∃ root, xmlRoot draws N = some root ∧
      XElem.tag root = "root" ∧
      (((XElem.children root).length : ℤ)) = N - 1 ∧
      (∀ e ∈ XElem.children root, XElem.tag e = "row" ∧
        (XElem.children e).map XElem.tag =
          ["start_page", "user", "ts", "depth", "duration", "transmit", "type"]) ∧
      (∀ i : ℕ, (hi : i < (XElem.children root).length) →
        ∃ rec, DataString.make (draws ((i : ℤ) + 1)) = some rec ∧
          (XElem.children root)[i] = XElem.mk "row" ""
            (rec.map (fun node => XElem.mk node.name (Value.str node.value) []))) := by
  refine ⟨_, xmlRoot_eq draws N, rfl, ?_, ?_, ?_⟩
  · simp only [XElem.children, List.length_map, List.length_range]; omega
  · intro e he
    simp only [XElem.children, List.mem_map, List.mem_range] at he
    obtain ⟨i, _, rfl⟩ := he
    exact ⟨rfl, rfl⟩
  · intro i hi
    refine ⟨dsFields (draws ((i : ℤ) + 1)), dataString_make_eq _, ?_⟩
    simp only [XElem.children] at hi ⊢
    simp only [List.getElem_map, List.getElem_range, rowElem]

/-- Witness for claim C3: requesting 5 rows yields a root with exactly 4
    `row` children. -/
theorem generate_xml_tree_witness :
    ∃ root, xmlRoot (fun _ => witnessDraws) 5 = some root ∧
      XElem.tag root = "root" ∧
      (((XElem.children root).length : ℤ)) = 5 - 1 ∧
      (∀ e ∈ XElem.children root, XElem.tag e = "row" ∧
        (XElem.children e).map XElem.tag =
          ["start_page", "user", "ts", "depth", "duration", "transmit", "type"]) ∧
      (∀ i : ℕ, (hi : i < (XElem.children root).length) →
        ∃ rec, DataString.make witnessDraws = some rec ∧
          (XElem.children root)[i] = XElem.mk "row" ""
            (rec.map (fun node => XElem.mk node.name (Value.str node.value) []))) :=
  generate_xml_tree (fun _ => witnessDraws) 5 (by decide)

/-- Claim C7: the written nested-format file is exactly the declaration
    prologue `<?xml version="1.0" encoding="UTF-8"?>` (on its own line, as the
    rewrite pass appends a newline) prepended to the serialized tree. -/
theorem generate_xml_prologue (draws : ℤ → RecDraws) (N : ℤ) :
    ∃ root, xmlRoot draws N = some root ∧
      generate_xml draws N =
        some ("<?xml version=\"1.0\" encoding=\"UTF-8\"?>\n" ++ serializeXml root) := by
  refine ⟨_, xmlRoot_eq draws N, ?_⟩
  simp [generate_xml, xmlRoot_eq]

/-- Claim C10: for any requested row count `N ≤ 1` (including 0 and negative
    counts) neither serializer fails: the flat output is exactly the header
    line, and the nested tree is a root with no children, written as the
    prologue plus an empty root element. -/
theorem serializers_accept_small_counts (draws : ℤ → RecDraws) (N : ℤ) (h : N ≤ 1) :
    generate_csv draws N = some "start_page,user,ts,depth,duration,transmit,type" ∧
    xmlRoot draws N = some (.mk "root" "" []) ∧
    generate_xml draws N =
      some ("<?xml version=\"1.0\" encoding=\"UTF-8\"?>\n<root />") := by
  have h0 : (N - 1).toNat = 0 := by omega
  refine ⟨?_, ?_, ?_⟩
  · rw [generate_csv_eq, h0]
    simp [joinLines, headers_dsFields]
  · rw [xmlRoot_eq, h0]
    rfl
  · simp only [generate_xml, xmlRoot_eq, h0, List.range_zero, List.map_nil, Option.bind_eq_bind,
      Option.some_bind, serializeXml, Option.some.injEq]
    decide

/-- Witness for claim C10 at `N = 0`. -/
theorem serializers_accept_small_counts_witness :
    generate_csv (fun _ => witnessDraws) 0 =
      some "start_page,user,ts,depth,duration,transmit,type" ∧
    xmlRoot (fun _ => witnessDraws) 0 = some (.mk "root" "" []) ∧
    generate_xml (fun _ => witnessDraws) 0 =
      some ("<?xml version=\"1.0\" encoding=\"UTF-8\"?>\n<root />") :=
  serializers_accept_small_counts (fun _ => witnessDraws) 0 (by decide)

/-- Claim C5: for an integer field with `min < max`, every possible draw
    (`0 ≤ k < max − min`) produces a value with `min ≤ value < max`. -/
theorem rand_int_in_range (mn mx k : ℤ) (hrange : mn < mx) (hk0 : 0 ≤ k)
    (hk1 : k < mx - mn) :
    ∃ v, rand_int mn mx k = some v ∧ mn ≤ v ∧ v < mx := by
  refine ⟨mn + k, ?_, by omega, by omega⟩
  simp [rand_int, hrange]

/-- Witness for claim C5 on the `start_page` bounds. -/
theorem rand_int_in_range_witness :
    ∃ v, rand_int 1 1000000000 7 = some v ∧ 1 ≤ v ∧ v < 1000000000 :=
  rand_int_in_range 1 1000000000 7 (by decide) (by decide) (by decide)

/-- Claim C9: integer value generation fails exactly when `min ≥ max`
    (`randrange` raises `ValueError` on an empty range), for any draw. -/
theorem rand_int_none_iff (mn mx k : ℤ) : rand_int mn mx k = none ↔ mx ≤ mn := by
  unfold rand_int
  split <;> rename_i hc <;> simp <;> omega

/-- Claim C6: for parseable timestamp bounds with `min ≤ max`, every possible
    draw (`u = random() ∈ [0, 1)`) produces a value in the inclusive window
    `[min, max]`. -/
theorem rand_ts_in_range (mn mx : String) (a b : ℤ) (u : ℚ)
    (hpa : str_to_ts mn = some a) (hpb : str_to_ts mx = some b)
    (hab : a ≤ b) (hu0 : 0 ≤ u) (hu1 : u < 1) :
    ∃ v, rand_ts mn mx u = some v ∧ a ≤ v ∧ v ≤ b := by
  have hmono : ∀ x y : ℚ, x ≤ y → round x ≤ round y := by
    intro x y hxy
    rw [round_eq, round_eq]
    exact Int.floor_le_floor (by linarith)
  have hsimp : (((b - a : ℤ) : ℚ) / 1000000) * u * 1000000 = ((b - a : ℤ) : ℚ) * u := by
    field_simp
  have h0 : (0 : ℤ) ≤ round ((((b - a : ℤ) : ℚ) / 1000000) * u * 1000000) := by
    rw [hsimp]
    have hnn : (0 : ℚ) ≤ ((b - a : ℤ) : ℚ) * u :=
      mul_nonneg (by exact_mod_cast sub_nonneg.mpr hab) hu0
    have := hmono 0 _ hnn
    simpa using this
  have h1 : round ((((b - a : ℤ) : ℚ) / 1000000) * u * 1000000) ≤ b - a := by
    rw [hsimp]
    have hle : ((b - a : ℤ) : ℚ) * u ≤ ((b - a : ℤ) : ℚ) :=
      mul_le_of_le_one_right (by exact_mod_cast sub_nonneg.mpr hab) (le_of_lt hu1)
    have := hmono _ _ hle
    rwa [round_intCast] at this
  refine ⟨a + round ((((b - a : ℤ) : ℚ) / 1000000) * u * 1000000), ?_, by omega, by omega⟩
  unfold rand_ts
  rw [hpa, hpb]

/-- Witness for claim C6 at the program's actual bounds
    `2005-01-01 23:56:42` and `2016-01-01 10:50:00`. -/
theorem rand_ts_in_range_witness :
    ∃ v, rand_ts "2005-01-01 23:56:42" "2016-01-01 10:50:00" 0 = some v ∧
      1104623802000000 ≤ v ∧ v ≤ 1451645400000000 :=
  rand_ts_in_range "2005-01-01 23:56:42" "2016-01-01 10:50:00"
    1104623802000000 1451645400000000 0 (by decide) (by decide) (by decide)
    (le_refl 0) (by decide)

/-- Claim C4 counterexample: with bounds in reversed order — the `min` string
    parses to the later instant 1451645400000000 µs, the `max` string to the
    earlier 1104623802000000 µs, a negative span — and the legal draw
    `u = 0`, `rand_ts` does NOT fail: it returns the parsed `min` instant.
    (`random.uniform(0, delta)` accepts a negative `delta`.) -/
theorem rand_ts_reversed_bounds_succeed :
    str_to_ts "2016-01-01 10:50:00" = some 1451645400000000 ∧
    str_to_ts "2005-01-01 23:56:42" = some 1104623802000000 ∧
    (1104623802000000 : ℤ) < 1451645400000000 ∧
    (0 : ℚ) ≤ 0 ∧ (0 : ℚ) < 1 ∧
    rand_ts "2016-01-01 10:50:00" "2005-01-01 23:56:42" 0 = some 1451645400000000 := by
  refine ⟨by decide, by decide, by decide, le_refl 0, by decide, ?_⟩
  have h1 : str_to_ts "2016-01-01 10:50:00" = some 1451645400000000 := by decide
  have h2 : str_to_ts "2005-01-01 23:56:42" = some 1104623802000000 := by decide
  unfold rand_ts
  rw [h1, h2]
  simp

/-- Claim C4 (amended): timestamp value generation fails exactly when one of
    the bound strings cannot be parsed; a reversed range (`max < min`) does
    not fail. -/
theorem rand_ts_none_iff (mn mx : String) (u : ℚ) :
    rand_ts mn mx u = none ↔ (str_to_ts mn = none ∨ str_to_ts mx = none) := by
  unfold rand_ts
  rcases h1 : str_to_ts mn with _ | a <;> rcases h2 : str_to_ts mx with _ | b <;> simp

/-- Claim C2 (code behavior at the failing input): the draw
    `u = 341858421240000 / 347021598000000 ∈ [0, 1)` makes the program's own
    timestamp generation produce the instant 2015-11-02 16:37:03.240000,
    which `str` renders with SIX fractional digits, not three; and the draw
    `u = 0` produces 2005-01-01 23:56:42, rendered with NO fractional digits
    at all. -/
theorem ts_format_six_fraction_digits :
    (0 : ℚ) ≤ 341858421240000 / 347021598000000 ∧
    (341858421240000 / 347021598000000 : ℚ) < 1 ∧
    rand_ts "2005-01-01 23:56:42" "2016-01-01 10:50:00"
      (341858421240000 / 347021598000000) = some 1446482223240000 ∧
    Value.str (.ts 1446482223240000) = "2015-11-02 16:37:03.240000" ∧
    rand_ts "2005-01-01 23:56:42" "2016-01-01 10:50:00" 0 = some 1104623802000000 ∧
    Value.str (.ts 1104623802000000) = "2005-01-01 23:56:42" := by
  have h1 : str_to_ts "2005-01-01 23:56:42" = some 1104623802000000 := by decide
  have h2 : str_to_ts "2016-01-01 10:50:00" = some 1451645400000000 := by decide
  refine ⟨by norm_num, by norm_num, ?_, by decide, ?_, by decide⟩
  · unfold rand_ts
    rw [h1, h2]
    have key : (((1451645400000000 - 1104623802000000 : ℤ) : ℚ) / 1000000) *
        (341858421240000 / 347021598000000) * 1000000 = ((341858421240000 : ℤ) : ℚ) := by
      push_cast
      norm_num
    simp only [key, round_intCast]
    norm_num
  · unfold rand_ts
    rw [h1, h2]
    simp

end GenData
